import Mathlib

/-
Verification development for `mogp_emulator/MultiOutputGP.py`.

The module is an orchestration layer: it validates and normalizes the
`inputs` / `targets` arrays, creates one `GaussianProcess` engine per
target row, and provides collection-wide `learn_hyperparameters` and
`predict` operations that dispatch independent per-engine work across a
`multiprocessing.Pool` (via `Pool.starmap`, which returns results in
submission order) and reassemble results in engine order.

Embedding choices:
 - Python numeric scalars are embedded as rationals (`ℚ`).
 - Numpy arrays are embedded as a shape plus a flat data list (`NPArray`);
   `NPArray.wf` says the data length matches the shape product, which every
   array produced by numpy satisfies.
 - `raise` / failed `assert` are embedded as the `PyResult.raise` branch of
   an explicit result type; the Python exception class and message are
   retained in `PyErr`.
 - The external `gp_emulator.GaussianProcess` engine (not part of this
   module) is embedded as a state record plus a semantics record
   `EngineSem` of uninterpreted behaviour functions, so theorems about the
   orchestration layer quantify over every possible engine behaviour.
 - `Pool.starmap f args` returns the list of results in the order of
   `args`, independently of the pool size; it is embedded as `List.map`.
   Worker processes act on pickled copies, so engine mutations inside
   `starmap` never reach the parent process; only the returned values do.
-/

/-- Python exception values surfaced by the module: `ValueError msg` and
`AssertionError msg` (a failed `assert cond, msg`). -/
inductive PyErr where
  | valueError (msg : String)
  | assertionError (msg : String)
deriving DecidableEq, Repr

/-- Result of a Python call: a value, or a raised exception. -/
inductive PyResult (α : Type) where
  | ok (val : α)
  | raise (e : PyErr)
deriving DecidableEq, Repr

/-- A numpy array: its shape and its flat (row-major) data. -/
structure NPArray where
  shape : List Nat
  data : List ℚ
deriving DecidableEq, Repr

/-- A real numpy array has as many data entries as the product of its
shape dimensions. -/
def NPArray.wf (a : NPArray) : Prop := a.data.length = a.shape.prod

instance (a : NPArray) : Decidable a.wf :=
  inferInstanceAs (Decidable (a.data.length = a.shape.prod))

/-- Rank of the array: `a.ndim`, that is `len(a.shape)`. -/
def NPArray.ndim (a : NPArray) : Nat := a.shape.length

/-- Dimension `i` of the array, `a.shape[i]` (0 when out of range; the code only reads in-range dims). -/
def NPArray.dim (a : NPArray) (i : Nat) : Nat := a.shape.getD i 0

/-- The last dimension of the array (`a.shape[-1]`). -/
def NPArray.lastDim (a : NPArray) : Nat := a.dim (a.ndim - 1)

/-- Row `i` of a rank-2 array, as a flat list of scalars. -/
def NPArray.row (a : NPArray) (i : Nat) : List ℚ :=
  (a.data.drop (i * a.dim 1)).take (a.dim 1)

/-- The rows of a rank-2 array, in order: iterating over the array in
Python (`for single_target in targets`) yields exactly these. -/
def NPArray.rows (a : NPArray) : List (List ℚ) :=
  (List.range (a.dim 0)).map a.row

/-- Python `int(x)` on a rational scalar: truncation toward zero.
`Int.tdiv` is T-division, which truncates toward zero, and `q.den > 0`
with the sign carried by `q.num`, so this is exactly `int()`. -/
def pyInt (q : ℚ) : Int := Int.tdiv q.num q.den

/-- State of one external `gp_emulator.GaussianProcess` engine as seen by
this module: the design matrix and target vector it was constructed from
(line 112 of the source) and its cached fitted hyperparameters, `none`
until a fit or loglikelihood call stores a parameter vector. -/
structure GaussianProcess where
  inputs : NPArray
  targets : List ℚ
  theta : Option (List ℚ)
deriving DecidableEq, Repr

/-- Uninterpreted behaviour of the external engine. `fitFun` is
`GaussianProcess.learn_hyperparameters(gp, n_tries, verbose, x0)`
returning a `(min negative log-likelihood, params)` pair; `loglikeFun` is
the score computed by `gp.loglikelihood(theta)`; `predictFun` is
`GaussianProcess.predict(gp, testing)` returning per-query means,
variances and derivative rows. Theorems quantify over this record, so
they hold for every engine behaviour. -/
structure EngineSem where
  fitFun : GaussianProcess → Nat → Bool → Option (List ℚ) → ℚ × List ℚ
  loglikeFun : GaussianProcess → List ℚ → ℚ
  predictFun : GaussianProcess → NPArray → List ℚ × List ℚ × List (List ℚ)

/-- Modelled from the spec: `RegressionEngine.loglikelihood(params) ->
score` is "used purely to force re-synchronization of engine-held state
after parallel fitting" (spec section 6); the engine itself is the external
collaborator `gp_emulator.GaussianProcess`, whose code is not part of this
module. Calling it stores `params` as the engine's cached fitted state and
returns a score. -/
def GaussianProcess.loglikelihood (sem : EngineSem) (gp : GaussianProcess)
    (th : List ℚ) : ℚ × GaussianProcess :=
  (sem.loglikeFun gp th, { gp with theta := some th })

/-- The collection: ordered engines plus the three derived scalars
recorded by `__init__` (lines 112-116). -/
structure MultiOutputGP where
  emulators : List GaussianProcess
  n_emulators : Nat
  n : Nat
  D : Nat
deriving DecidableEq, Repr

/-- The message of the cross-dimension `ValueError` (line 110): it names
both offending dimensions (the first dimension of inputs and the second —
or first, for 1D — dimension of targets). -/
def mismatchMsg : String :=
  "the first dimension of inputs must be the same length as the second dimension of targets (or first if targets is 1D))"

/-- Lines 107-116 of `__init__`, after target-rank normalization: the
inputs rank check, the cross-dimension check, engine creation (one per
target row, in row order) and recording of the derived scalars. -/
def MultiOutputGP.makeChecked (inputs t : NPArray) : PyResult MultiOutputGP :=
  if inputs.ndim ≠ 2 then .raise (.valueError "inputs must be 2D array")
  else if inputs.dim 0 ≠ t.dim 1 then .raise (.valueError mismatchMsg)
  else .ok
    { emulators := t.rows.map (fun row => ⟨inputs, row, none⟩)
      n_emulators := t.dim 0
      n := inputs.dim 0
      D := inputs.dim 1 }

/-- Constructor `MultiOutputGP.__init__(inputs, targets)` (lines 100-116): a rank-1
targets array of length `m` is reshaped to `(1, m)` (`len(targets)` is
`targets.shape[0]`); any rank other than 1 or 2 raises; then the checks
and construction of `makeChecked` run. -/
def MultiOutputGP.make (inputs targets : NPArray) : PyResult MultiOutputGP :=
  if targets.ndim = 1 then
    MultiOutputGP.makeChecked inputs ⟨[1, targets.dim 0], targets.data⟩
  else if targets.ndim = 2 then
    MultiOutputGP.makeChecked inputs targets
  else .raise (.valueError "targets must be either a 1D or 2D array")

/-- Accessor `get_n_emulators` (line 125). -/
def MultiOutputGP.get_n_emulators (m : MultiOutputGP) : Nat := m.n_emulators

/-- Accessor `get_n` (line 134). -/
def MultiOutputGP.get_n (m : MultiOutputGP) : Nat := m.n

/-- Accessor `get_D` (line 143). -/
def MultiOutputGP.get_D (m : MultiOutputGP) : Nat := m.D

/-- The `x0` validation of `learn_hyperparameters` (lines 190-192):
`True` when `x0` is given and `len(x0) != D + 2`, so the assert fails. -/
def badX0 (x0 : Option (List ℚ)) (D : Nat) : Bool :=
  match x0 with
  | some l => l.length != D + 2
  | none => false

/-- The `processes` validation shared by `learn_hyperparameters` (lines
193-195) and `predict` (lines 218-220): when `processes` is given it is
first truncated with `int()`, then required to be positive; `True` when
the assert fails. -/
def badProcesses (p : Option ℚ) : Bool :=
  match p with
  | some q => decide (pyInt q ≤ 0)
  | none => false

/-- The body of `learn_hyperparameters` after validation (lines 199-209):
`Pool.starmap` maps the engine fit over the emulators in order; then the
zip loop re-applies each returned parameter vector to its engine through
`loglikelihood`, and the starmap result is returned unchanged. -/
def MultiOutputGP.learnChecked (sem : EngineSem) (m : MultiOutputGP)
    (nt : Nat) (verbose : Bool) (x0 : Option (List ℚ)) :
    List (ℚ × List ℚ) × MultiOutputGP :=
  let results := m.emulators.map (fun gp => sem.fitFun gp nt verbose x0)
  let newEms := (m.emulators.zip results).map
    (fun pr => ((pr.1).loglikelihood sem (pr.2).2).2)
  (results, { m with emulators := newEms })

/-- Method `learn_hyperparameters(n_tries=15, verbose=False, x0=None,
processes=None)` (lines 189-209). Validation order follows the source:
`assert int(n_tries) > 0`, then the `x0` length assert, then the
`processes` assert; only then is the pool created and work dispatched.
On the raise branches no engine is touched and no fit task runs (the
result does not depend on `sem`). -/
def MultiOutputGP.learn_hyperparameters (sem : EngineSem) (m : MultiOutputGP)
    (n_tries : ℚ) (verbose : Bool) (x0 : Option (List ℚ))
    (processes : Option ℚ) : PyResult (List (ℚ × List ℚ) × MultiOutputGP) :=
  if pyInt n_tries ≤ 0 then
    .raise (.assertionError "n_tries must be a positive integer")
  else if badX0 x0 m.D then
    .raise (.assertionError "x0 must have length of number of input parameters D + 2")
  else if badProcesses processes then
    .raise (.assertionError "number of processes must be positive")
  else .ok (m.learnChecked sem (pyInt n_tries).toNat verbose x0)

/-- The value returned by `predict` (line 235): the stacked means, and the
stacked variances / derivatives or `None` (`null`) when suppressed. -/
structure PredictResult where
  mean : List (List ℚ)
  unc : Option (List (List ℚ))
  deriv : Option (List (List (List ℚ)))
deriving DecidableEq, Repr

/-- Method `predict(testing, do_deriv=True, do_unc=True, processes=None)` (lines
215-235). Validation order follows the source: `testing` rank assert,
`testing` second-dimension assert, `processes` assert; then the pool maps
the engine predict over the emulators in order. The repackaging line
`predict_unpacked, unc_unpacked, deriv_unpacked = [np.array(t) for t in
zip(*predict_vals)]` raises `ValueError("not enough values to unpack
(expected 3, got 0)")` when the collection holds no emulators, because
`zip(*[])` is empty. `do_unc=False` / `do_deriv=False` only replace the
corresponding slot by `None` after everything is computed. -/
def MultiOutputGP.predict (sem : EngineSem) (m : MultiOutputGP)
    (testing : NPArray) (do_deriv do_unc : Bool) (processes : Option ℚ) :
    PyResult PredictResult :=
  if testing.ndim ≠ 2 then
    .raise (.assertionError "testing must be a 2D array")
  else if testing.dim 1 ≠ m.D then
    .raise (.assertionError "second dimension of testing must be the same as the number of input parameters")
  else if badProcesses processes then
    .raise (.assertionError "number of processes must be a positive integer")
  else if m.emulators.isEmpty then
    .raise (.valueError "not enough values to unpack (expected 3, got 0)")
  else
    let vals := m.emulators.map (fun gp => sem.predictFun gp testing)
    .ok
      { mean := vals.map (fun v => v.1)
        unc := if do_unc then some (vals.map (fun v => v.2.1)) else none
        deriv := if do_deriv then some (vals.map (fun v => v.2.2)) else none }

/-- A concrete engine semantics used to evaluate the model on concrete
inputs. -/
def demoSem : EngineSem where
  fitFun := fun gp nt _ _ => ((nt : ℚ), (nt : ℚ) :: gp.targets)
  loglikeFun := fun _ _ => 0
  predictFun := fun _ t =>
    (t.rows.map (fun _ => 0), t.rows.map (fun _ => 0),
     t.rows.map (fun r => r.map (fun _ => 0)))

/-- A concrete `(2, 2)` design matrix. -/
def demoInputs : NPArray := ⟨[2, 2], [1, 2, 3, 4]⟩

/-- A concrete `(1, 2)` targets array. -/
def demoTargets : NPArray := ⟨[1, 2], [5, 6]⟩

/-- The collection constructed from `demoInputs` and `demoTargets`. -/
def demoMogp : MultiOutputGP :=
  ⟨[⟨demoInputs, [5, 6], none⟩], 1, 2, 2⟩

/-- A concrete `(0, 2)` targets array: a real numpy array (e.g.
`np.zeros((0, 2))`) with zero target rows. -/
def emptyTargets : NPArray := ⟨[0, 2], []⟩

/-- The collection that `__init__` builds from `demoInputs` and
`emptyTargets`: zero engines. -/
def emptyMogp : MultiOutputGP := ⟨[], 0, 2, 2⟩

/-- A concrete `(1, 2)` query-point array. -/
def demoTesting : NPArray := ⟨[1, 2], [10, 20]⟩

/-- The rational 15.9 (numerator 159, denominator 10), built structurally
so that the kernel can evaluate on it. -/
def q159 : ℚ := Rat.mk' 159 10 (by decide) (by norm_num)

/-- The rational 1/2, built structurally. -/
def qHalf : ℚ := Rat.mk' 1 2 (by decide) (by norm_num)

/-- The rational 3/2, built structurally. -/
def qThreeHalves : ℚ := Rat.mk' 3 2 (by decide) (by norm_num)

/-- The fit results `demoSem` produces on `demoMogp` with 15 tries. -/
def demoFitRes : List (ℚ × List ℚ) := [((15 : ℚ), [15, 5, 6])]

/-- The collection state after `learn_hyperparameters` on `demoMogp`
under `demoSem`: the engine now caches the returned parameters. -/
def demoMogpFitted : MultiOutputGP :=
  ⟨[⟨demoInputs, [5, 6], some [15, 5, 6]⟩], 1, 2, 2⟩

/-- The number of rows of an array equals its first dimension. -/
theorem NPArray.rows_count (a : NPArray) : a.rows.length = a.dim 0 := by
  simp [NPArray.rows]

/-- Every row of an array whose data fills its first two dimensions has
the length of the second dimension. -/
theorem NPArray.rows_length (a : NPArray)
    (h : a.data.length = a.dim 0 * a.dim 1) :
    ∀ r ∈ a.rows, r.length = a.dim 1 := by
  intro r hr
  simp only [NPArray.rows, List.mem_map, List.mem_range] at hr
  obtain ⟨i, hi, rfl⟩ := hr
  have h3 : i * a.dim 1 + a.dim 1 ≤ a.dim 0 * a.dim 1 := by
    have h2 := Nat.mul_le_mul_right (a.dim 1) hi
    rwa [Nat.succ_mul] at h2
  have h4 : a.dim 1 ≤ a.dim 0 * a.dim 1 - i * a.dim 1 :=
    Nat.le_sub_of_add_le (by rwa [Nat.add_comm])
  simp [NPArray.row, h, Nat.min_eq_left h4]

/-- A successfully constructed collection owns exactly `n_emulators`
engines. -/
theorem make_ok_emulators_length (inputs targets : NPArray)
    (m : MultiOutputGP) (hmk : MultiOutputGP.make inputs targets = .ok m) :
    m.emulators.length = m.n_emulators := by
  unfold MultiOutputGP.make MultiOutputGP.makeChecked at hmk
  split at hmk
  · split at hmk
    · exact absurd hmk (by simp)
    · split at hmk
      · exact absurd hmk (by simp)
      · cases hmk
        simp [NPArray.rows]
  · split at hmk
    · split at hmk
      · exact absurd hmk (by simp)
      · split at hmk
        · exact absurd hmk (by simp)
        · cases hmk
          simp [NPArray.rows]
    · exact absurd hmk (by simp)

/-- Inversion lemma for a successful `learn_hyperparameters` call: all
three validations passed and the result is the checked body. -/
theorem learn_ok_iff (sem : EngineSem) (m : MultiOutputGP) (n_tries : ℚ)
    (verbose : Bool) (x0 : Option (List ℚ)) (processes : Option ℚ)
    (res : List (ℚ × List ℚ)) (mnew : MultiOutputGP) :
    m.learn_hyperparameters sem n_tries verbose x0 processes = .ok (res, mnew) ↔
      0 < pyInt n_tries ∧ badX0 x0 m.D = false ∧ badProcesses processes = false ∧
      (res, mnew) = m.learnChecked sem (pyInt n_tries).toNat verbose x0 := by
  unfold MultiOutputGP.learn_hyperparameters
  split
  · rename_i h
    simp
    intro h2
    omega
  · split
    · rename_i h1 h2
      simp [h2]
    · split
      · rename_i h1 h2 h3
        simp [h2, h3]
      · rename_i h1 h2 h3
        simp only [Bool.not_eq_true] at h2 h3
        simp [h2, h3]
        constructor
        · intro h
          exact ⟨by omega, h.symm⟩
        · intro h
          exact h.2.symm

/-- Python `int()` on an integer-valued scalar is that integer. -/
theorem pyInt_intCast (k : ℤ) : pyInt (k : ℚ) = k := by
  simp [pyInt, Rat.num_intCast, Rat.den_intCast]

/-- The orchestration only reads `n_tries` through `int(n_tries)`, so two
scalars with the same truncation drive identical calls. -/
theorem learn_pyInt_congr (sem : EngineSem) (m : MultiOutputGP) (a b : ℚ)
    (h : pyInt a = pyInt b) (verbose : Bool) (x0 : Option (List ℚ))
    (processes : Option ℚ) :
    m.learn_hyperparameters sem a verbose x0 processes =
      m.learn_hyperparameters sem b verbose x0 processes := by
  unfold MultiOutputGP.learn_hyperparameters
  rw [h]

/-- C4: constructing the collection with a 1D target vector `d` (shape
`(n,)` with `n = d.length`) is observationally equivalent to constructing
it with the 2D single-row table of shape `(1, n)` holding the same data:
the two constructor calls return identical results (same engines, same
derived scalars, same error behaviour). -/
theorem c4_targets_rank1_equiv_single_row (inputs : NPArray) (d : List ℚ) :
    MultiOutputGP.make inputs ⟨[d.length], d⟩ =
      MultiOutputGP.make inputs ⟨[1, d.length], d⟩ := by
  simp [MultiOutputGP.make, NPArray.ndim, NPArray.dim]

/-- C6: for every rank-2 inputs table and rank-1-or-2 targets table whose
first inputs dimension differs from the last targets dimension,
construction raises the `ValueError` whose message (`mismatchMsg`) names
both offending dimensions ("the first dimension of inputs", "the second
dimension of targets (or first if targets is 1D)"); being a raise, no
collection and no engine is created. -/
theorem c6_dimension_mismatch_raises (inputs targets : NPArray)
    (hi : inputs.ndim = 2) (ht : targets.ndim = 1 ∨ targets.ndim = 2)
    (hmm : inputs.dim 0 ≠ targets.lastDim) :
    MultiOutputGP.make inputs targets = .raise (.valueError mismatchMsg) := by
  rcases ht with h1 | h2
  · rw [NPArray.lastDim, h1] at hmm
    simp [NPArray.dim] at hmm
    simp [MultiOutputGP.make, MultiOutputGP.makeChecked, h1, hi,
      NPArray.dim, hmm]
  · rw [NPArray.lastDim, h2] at hmm
    have h3 : ¬ targets.ndim = 1 := by omega
    simp [MultiOutputGP.make, MultiOutputGP.makeChecked, h2, h3, hi, hmm]

/-- C7 counterexample: the claim states the inputs rank error carries the
message "inputs must be 2D", but the code (line 108) raises `ValueError`
with the message "inputs must be 2D array". -/
theorem c7_counterexample :
    MultiOutputGP.make ⟨[2], [1, 2]⟩ ⟨[2], [5, 6]⟩ =
      .raise (.valueError "inputs must be 2D array") ∧
    ("inputs must be 2D array" : String) ≠ "inputs must be 2D" := by
  decide

/-- C7 amended: for targets of rank 1 or 2, any inputs whose rank is not
2 raises a `ValueError` with message "inputs must be 2D array" (not
"inputs must be 2D" as claimed); and targets of any rank other than 1 or
2 raise a `ValueError` with message "targets must be either a 1D or 2D
array" before inputs are even examined. In both cases the constructor
raises, so no engine is constructed. -/
theorem c7_rank_errors (inputs targets : NPArray) :
    ((targets.ndim = 1 ∨ targets.ndim = 2) → inputs.ndim ≠ 2 →
      MultiOutputGP.make inputs targets =
        .raise (.valueError "inputs must be 2D array")) ∧
    (targets.ndim ≠ 1 → targets.ndim ≠ 2 →
      MultiOutputGP.make inputs targets =
        .raise (.valueError "targets must be either a 1D or 2D array")) := by
  constructor
  · intro ht hi
    rcases ht with h1 | h2
    · simp [MultiOutputGP.make, MultiOutputGP.makeChecked, h1, hi]
    · have h3 : ¬ targets.ndim = 1 := by omega
      simp [MultiOutputGP.make, MultiOutputGP.makeChecked, h2, h3, hi]
  · intro h1 h2
    simp [MultiOutputGP.make, h1, h2]

/-- C1: for every successfully constructed collection and every valid
fit call, `learn_hyperparameters` returns the list that maps engine `i`
(in construction order) to its own fit result, of length exactly
`n_emulators`; and the returned value is identical for every valid
`processes` argument (`none` or any positive count), since
`Pool.starmap` returns results in submission order whatever the pool
size. -/
theorem c1_fit_all_order_length_parallelism (sem : EngineSem)
    (inputs targets : NPArray) (m : MultiOutputGP)
    (hmk : MultiOutputGP.make inputs targets = .ok m)
    (n_tries : ℚ) (hnt : 0 < pyInt n_tries) (verbose : Bool)
    (x0 : Option (List ℚ)) (hx0 : badX0 x0 m.D = false)
    (p1 p2 : Option ℚ) (hp1 : badProcesses p1 = false)
    (hp2 : badProcesses p2 = false) :
    (∃ mnew, m.learn_hyperparameters sem n_tries verbose x0 p1 =
        .ok (m.emulators.map
          (fun gp => sem.fitFun gp (pyInt n_tries).toNat verbose x0), mnew)) ∧
    (m.emulators.map
        (fun gp => sem.fitFun gp (pyInt n_tries).toNat verbose x0)).length =
      m.n_emulators ∧
    m.learn_hyperparameters sem n_tries verbose x0 p1 =
      m.learn_hyperparameters sem n_tries verbose x0 p2 := by
  have hlen := make_ok_emulators_length inputs targets m hmk
  have hnt2 : ¬ pyInt n_tries ≤ 0 := by omega
  refine ⟨⟨(m.learnChecked sem (pyInt n_tries).toNat verbose x0).2, ?_⟩, ?_, ?_⟩
  · simp [MultiOutputGP.learn_hyperparameters, hnt2, hx0, hp1,
      MultiOutputGP.learnChecked]
  · simpa using hlen
  · simp [MultiOutputGP.learn_hyperparameters, hnt2, hx0, hp1, hp2]

/-- C1 witness: the theorem applied to the concrete collection built
from `demoInputs` and `demoTargets`, with `n_tries = 15` and the two
parallelism values `none` (default) and 2. -/
theorem c1_fit_all_order_length_parallelism_witness :
    (∃ mnew, demoMogp.learn_hyperparameters demoSem 15 false none none =
        .ok (demoMogp.emulators.map
          (fun gp => demoSem.fitFun gp (pyInt 15).toNat false none), mnew)) ∧
    (demoMogp.emulators.map
        (fun gp => demoSem.fitFun gp (pyInt 15).toNat false none)).length =
      demoMogp.n_emulators ∧
    demoMogp.learn_hyperparameters demoSem 15 false none none =
      demoMogp.learn_hyperparameters demoSem 15 false none (some 2) :=
  c1_fit_all_order_length_parallelism demoSem demoInputs demoTargets demoMogp
    (by decide) 15 (by decide) false none (by decide) none (some 2)
    (by decide) (by decide)

/-- C2 counterexample: the claim quantifies over every successfully
constructed collection, but the collection built from a `(0, 2)` targets
array (a real numpy array, e.g. `np.zeros((0, 2))`) holds zero engines,
and `predict` on it raises the unpacking `ValueError` at the repackaging
line instead of returning arrays of shape `(0, n_query)`. -/
theorem c2_counterexample :
    MultiOutputGP.make demoInputs emptyTargets = .ok emptyMogp ∧
    emptyMogp.predict demoSem demoTesting true true none =
      .raise (.valueError "not enough values to unpack (expected 3, got 0)") := by
  decide

/-- C2 amended: for every successfully constructed collection holding at
least one engine, and every valid query table of `n_query` points (with
engines honouring the collaborator contract of spec section 6), `predict`
returns the per-engine means stacked in engine order with outer length
`n_emulators` and inner length `n_query`; the variance slot is the
equally-shaped stack when `do_unc` and `None` otherwise; the derivative
slot is the `(n_emulators, n_query, D)` stack when `do_deriv` and `None`
otherwise; and each flag only replaces its own slot by `None` — the
formulas for the other two components do not depend on it. -/
theorem c2_predict_shapes_and_flags (sem : EngineSem)
    (inputs targets : NPArray) (m : MultiOutputGP)
    (hmk : MultiOutputGP.make inputs targets = .ok m)
    (hne : m.emulators ≠ [])
    (nq : Nat) (testing : NPArray) (ht : testing.shape = [nq, m.D])
    (hcon : ∀ gp ∈ m.emulators,
      (sem.predictFun gp testing).1.length = nq ∧
      (sem.predictFun gp testing).2.1.length = nq ∧
      (sem.predictFun gp testing).2.2.length = nq ∧
      ∀ r ∈ (sem.predictFun gp testing).2.2, r.length = m.D)
    (p : Option ℚ) (hp : badProcesses p = false) (dd du : Bool) :
    m.predict sem testing dd du p = .ok
      { mean := m.emulators.map (fun gp => (sem.predictFun gp testing).1)
        unc := if du then
            some (m.emulators.map (fun gp => (sem.predictFun gp testing).2.1))
          else none
        deriv := if dd then
            some (m.emulators.map (fun gp => (sem.predictFun gp testing).2.2))
          else none } ∧
    (m.emulators.map (fun gp => (sem.predictFun gp testing).1)).length =
      m.n_emulators ∧
    (∀ row ∈ m.emulators.map (fun gp => (sem.predictFun gp testing).1),
      row.length = nq) ∧
    (∀ row ∈ m.emulators.map (fun gp => (sem.predictFun gp testing).2.1),
      row.length = nq) ∧
    (∀ dmat ∈ m.emulators.map (fun gp => (sem.predictFun gp testing).2.2),
      dmat.length = nq ∧ ∀ r ∈ dmat, r.length = m.D) := by
  have hlen := make_ok_emulators_length inputs targets m hmk
  have hnd : testing.ndim = 2 := by simp [NPArray.ndim, ht]
  have hd1 : testing.dim 1 = m.D := by simp [NPArray.dim, ht]
  have hemp : m.emulators.isEmpty = false := by
    simpa [List.isEmpty_iff] using hne
  refine ⟨?_, ?_, ?_, ?_, ?_⟩
  · simp [MultiOutputGP.predict, hnd, hd1, hp, hemp]
    constructor
    · split
      · rfl
      · rfl
    · split
      · rfl
      · rfl
  · simpa using hlen
  · intro row hrow
    simp only [List.mem_map] at hrow
    obtain ⟨gp, hgp, rfl⟩ := hrow
    exact (hcon gp hgp).1
  · intro row hrow
    simp only [List.mem_map] at hrow
    obtain ⟨gp, hgp, rfl⟩ := hrow
    exact (hcon gp hgp).2.1
  · intro dmat hdmat
    simp only [List.mem_map] at hdmat
    obtain ⟨gp, hgp, rfl⟩ := hdmat
    exact ⟨(hcon gp hgp).2.2.1, (hcon gp hgp).2.2.2⟩

/-- C2 witness: the amended theorem applied to the concrete one-engine
collection, one query point, both flags on. -/
theorem c2_predict_shapes_and_flags_witness :
    demoMogp.predict demoSem demoTesting true true none = .ok
      { mean := demoMogp.emulators.map
          (fun gp => (demoSem.predictFun gp demoTesting).1)
        unc := if true then
            some (demoMogp.emulators.map
              (fun gp => (demoSem.predictFun gp demoTesting).2.1))
          else none
        deriv := if true then
            some (demoMogp.emulators.map
              (fun gp => (demoSem.predictFun gp demoTesting).2.2))
          else none } ∧
    (demoMogp.emulators.map
        (fun gp => (demoSem.predictFun gp demoTesting).1)).length =
      demoMogp.n_emulators ∧
    (∀ row ∈ demoMogp.emulators.map
        (fun gp => (demoSem.predictFun gp demoTesting).1), row.length = 1) ∧
    (∀ row ∈ demoMogp.emulators.map
        (fun gp => (demoSem.predictFun gp demoTesting).2.1), row.length = 1) ∧
    (∀ dmat ∈ demoMogp.emulators.map
        (fun gp => (demoSem.predictFun gp demoTesting).2.2),
      dmat.length = 1 ∧ ∀ r ∈ dmat, r.length = demoMogp.D) :=
  c2_predict_shapes_and_flags demoSem demoInputs demoTargets demoMogp
    (by decide) (by decide) 1 demoTesting (by decide) (by decide)
    none (by decide) true true

/-- C3: after a successful `learn_hyperparameters` call, the collection
holds, at every index `i`, the engine obtained by re-applying the
returned parameter vector `i` to engine `i` through `loglikelihood` (the
zip loop of lines 207-208), and its cached fitted state equals exactly
that returned parameter vector. The loglikelihood state update is the
behaviour the spec assigns to the external engine (section 6). -/
theorem c3_resync_cached_state (sem : EngineSem) (m : MultiOutputGP)
    (n_tries : ℚ) (verbose : Bool) (x0 : Option (List ℚ))
    (processes : Option ℚ) (res : List (ℚ × List ℚ)) (mnew : MultiOutputGP)
    (hcall : m.learn_hyperparameters sem n_tries verbose x0 processes =
      .ok (res, mnew)) :
    mnew.emulators = (m.emulators.zip res).map
      (fun pr => ((pr.1).loglikelihood sem (pr.2).2).2) ∧
    res.length = m.emulators.length ∧
    mnew.emulators.length = res.length ∧
    ∀ i (hi : i < mnew.emulators.length) (hr : i < res.length),
      (mnew.emulators.get ⟨i, hi⟩).theta = some ((res.get ⟨i, hr⟩).2) := by
  rw [learn_ok_iff] at hcall
  obtain ⟨-, -, -, heq⟩ := hcall
  have hres : res =
      m.emulators.map (fun gp => sem.fitFun gp (pyInt n_tries).toNat verbose x0) := by
    have := congrArg Prod.fst heq
    simpa [MultiOutputGP.learnChecked] using this
  have hems : mnew.emulators = (m.emulators.zip res).map
      (fun pr => ((pr.1).loglikelihood sem (pr.2).2).2) := by
    have := congrArg (fun p => (Prod.snd p).emulators) heq
    simp only [MultiOutputGP.learnChecked] at this
    rw [this, hres]
  have hrl : res.length = m.emulators.length := by simp [hres]
  have hml : mnew.emulators.length = res.length := by
    simp [hems, hrl]
  refine ⟨hems, hrl, hml, ?_⟩
  intro i hi hr
  have hi2 : i < m.emulators.length := by omega
  have hz : i < (m.emulators.zip res).length := by
    simp [List.length_zip]
    omega
  simp only [hems, List.get_eq_getElem, List.getElem_map, List.getElem_zip,
    GaussianProcess.loglikelihood]

/-- C3 witness: the resynchronization theorem applied to the concrete
one-engine collection; the engine ends up caching `[15, 5, 6]`, the
parameter vector returned for it. -/
theorem c3_resync_cached_state_witness :
    demoMogpFitted.emulators = (demoMogp.emulators.zip demoFitRes).map
      (fun pr => ((pr.1).loglikelihood demoSem (pr.2).2).2) ∧
    demoFitRes.length = demoMogp.emulators.length ∧
    demoMogpFitted.emulators.length = demoFitRes.length ∧
    ∀ i (hi : i < demoMogpFitted.emulators.length)
      (hr : i < demoFitRes.length),
      (demoMogpFitted.emulators.get ⟨i, hi⟩).theta =
        some ((demoFitRes.get ⟨i, hr⟩).2) :=
  c3_resync_cached_state demoSem demoMogp 15 false none none demoFitRes
    demoMogpFitted (by decide)

/-- Inversion of a successful `makeChecked`: both checks passed and the
result is the constructed record. -/
theorem makeChecked_ok_inv (inputs t : NPArray) (m : MultiOutputGP)
    (h : MultiOutputGP.makeChecked inputs t = .ok m) :
    inputs.ndim = 2 ∧ inputs.dim 0 = t.dim 1 ∧
    m = ⟨t.rows.map (fun row => ⟨inputs, row, none⟩),
         t.dim 0, inputs.dim 0, inputs.dim 1⟩ := by
  unfold MultiOutputGP.makeChecked at h
  split at h
  · exact absurd h (by simp)
  · split at h
    · exact absurd h (by simp)
    · rename_i h1 h2
      rw [not_not] at h1 h2
      cases h
      exact ⟨h1, h2, rfl⟩

/-- Inversion of a successful `make`: either the targets were rank 1 and
were normalized to a single row, or they were rank 2 and used as is. -/
theorem make_ok_inv (inputs targets : NPArray) (m : MultiOutputGP)
    (h : MultiOutputGP.make inputs targets = .ok m) :
    (targets.ndim = 1 ∧
      MultiOutputGP.makeChecked inputs ⟨[1, targets.dim 0], targets.data⟩ =
        .ok m) ∨
    (targets.ndim = 2 ∧ MultiOutputGP.makeChecked inputs targets = .ok m) := by
  unfold MultiOutputGP.make at h
  split at h
  · exact Or.inl ⟨by assumption, h⟩
  · split at h
    · exact Or.inr ⟨by assumption, h⟩
    · exact absurd h (by simp)

/-- Shape consistency of the constructed collection, given that the
normalized targets data fills its two dimensions. -/
theorem makeChecked_shape_consistency (inputs t : NPArray)
    (m : MultiOutputGP) (hdata : t.data.length = t.dim 0 * t.dim 1)
    (hchk : MultiOutputGP.makeChecked inputs t = .ok m) :
    m.n = inputs.dim 0 ∧ m.D = inputs.dim 1 ∧ inputs.ndim = 2 ∧
    m.emulators.length = m.n_emulators ∧
    ∀ gp ∈ m.emulators, gp.inputs = inputs ∧ gp.targets.length = m.n := by
  obtain ⟨hnd, hcross, hm⟩ := makeChecked_ok_inv inputs t m hchk
  subst hm
  refine ⟨rfl, rfl, hnd, by simp [NPArray.rows], ?_⟩
  intro gp hgp
  simp only [List.mem_map] at hgp
  obtain ⟨row, hrow, rfl⟩ := hgp
  refine ⟨rfl, ?_⟩
  rw [NPArray.rows_length t hdata row hrow]
  exact hcross.symm

/-- C5 counterexample: the claim says construction never succeeds with an
empty target set, but constructing from the well-formed `(2, 2)` design
matrix and the well-formed `(0, 2)` targets array (e.g. `np.zeros((0, 2))`)
succeeds and records `n_emulators = 0` — no positivity check exists in
the constructor. -/
theorem c5_counterexample :
    demoInputs.wf ∧ emptyTargets.wf ∧
    MultiOutputGP.make demoInputs emptyTargets = .ok emptyMogp ∧
    emptyMogp.get_n_emulators = 0 := by
  decide

/-- C5 amended: every successfully constructed collection (from a
well-formed targets array) has consistent shapes — `n` and `D` are the
two dimensions of the (necessarily rank-2) inputs, there are exactly
`n_emulators` engines, and every engine holds the shared inputs and a
target vector of length exactly `n` — but none of `n ≥ 1`, `D ≥ 1`,
`n_emulators ≥ 1` is enforced: empty designs and empty target sets
construct successfully. -/
theorem c5_construction_shape_consistency (inputs targets : NPArray)
    (m : MultiOutputGP) (hwt : targets.wf)
    (hmk : MultiOutputGP.make inputs targets = .ok m) :
    m.n = inputs.dim 0 ∧ m.D = inputs.dim 1 ∧ inputs.ndim = 2 ∧
    m.emulators.length = m.n_emulators ∧
    ∀ gp ∈ m.emulators, gp.inputs = inputs ∧ gp.targets.length = m.n := by
  rcases make_ok_inv inputs targets m hmk with ⟨h1, hchk⟩ | ⟨h2, hchk⟩
  · have h1l : targets.shape.length = 1 := h1
    obtain ⟨k, hk⟩ := List.length_eq_one.mp h1l
    have hlen2 : targets.data.length = k := by
      have h0 : targets.data.length = targets.shape.prod := hwt
      rw [hk] at h0
      simpa using h0
    refine makeChecked_shape_consistency inputs _ m ?_ hchk
    simp [NPArray.dim, hk, hlen2]
  · have h2l : targets.shape.length = 2 := h2
    obtain ⟨a, b, hab⟩ := List.length_eq_two.mp h2l
    have hlen2 : targets.data.length = a * b := by
      have h0 : targets.data.length = targets.shape.prod := hwt
      rw [hab] at h0
      simpa using h0
    refine makeChecked_shape_consistency inputs _ m ?_ hchk
    simp [NPArray.dim, hab, hlen2]

/-- C5 amended witness: the shape-consistency theorem applied to the
concrete one-engine collection. -/
theorem c5_construction_shape_consistency_witness :
    demoTargets.wf ∧
    (demoMogp.n = demoInputs.dim 0 ∧ demoMogp.D = demoInputs.dim 1 ∧
      demoInputs.ndim = 2 ∧
      demoMogp.emulators.length = demoMogp.n_emulators ∧
      ∀ gp ∈ demoMogp.emulators,
        gp.inputs = demoInputs ∧ gp.targets.length = demoMogp.n) :=
  ⟨by decide, c5_construction_shape_consistency demoInputs demoTargets
    demoMogp (by decide) (by decide)⟩

/-- C6 witness: a `(2, 2)` inputs table against a 1D targets vector of
length 3 raises the cross-dimension `ValueError`. -/
theorem c6_dimension_mismatch_raises_witness :
    demoInputs.ndim = 2 ∧ (⟨[3], [1, 2, 3]⟩ : NPArray).ndim = 1 ∧
    demoInputs.dim 0 ≠ (⟨[3], [1, 2, 3]⟩ : NPArray).lastDim ∧
    MultiOutputGP.make demoInputs ⟨[3], [1, 2, 3]⟩ =
      .raise (.valueError mismatchMsg) :=
  ⟨by decide, by decide, by decide,
    c6_dimension_mismatch_raises demoInputs ⟨[3], [1, 2, 3]⟩ (by decide)
      (Or.inl (by decide)) (by decide)⟩

/-- C7 amended witness: a rank-1 inputs array raises the inputs message,
and a rank-0 targets array raises the targets message. -/
theorem c7_rank_errors_witness :
    MultiOutputGP.make ⟨[2], [1, 2]⟩ ⟨[2], [5, 6]⟩ =
      .raise (.valueError "inputs must be 2D array") ∧
    MultiOutputGP.make demoInputs ⟨[], [7]⟩ =
      .raise (.valueError "targets must be either a 1D or 2D array") :=
  ⟨(c7_rank_errors ⟨[2], [1, 2]⟩ ⟨[2], [5, 6]⟩).1 (Or.inl (by decide))
      (by decide),
   (c7_rank_errors demoInputs ⟨[], [7]⟩).2 (by decide) (by decide)⟩

/-- The checked fit body never changes the three derived scalars. -/
theorem learnChecked_preserves_scalars (sem : EngineSem) (m : MultiOutputGP)
    (nt : Nat) (v : Bool) (x0 : Option (List ℚ)) :
    (m.learnChecked sem nt v x0).2.n_emulators = m.n_emulators ∧
    (m.learnChecked sem nt v x0).2.n = m.n ∧
    (m.learnChecked sem nt v x0).2.D = m.D :=
  ⟨rfl, rfl, rfl⟩

/-- C8: every invalid scalar argument — a non-positive `n_tries`, an
`x0` whose length is not `D + 2`, or a `processes` whose truncation is
non-positive — makes the call raise its `AssertionError` synchronously.
The raised value is a fixed constant independent of the engine semantics
`sem` and of `processes`, so no fit or predict task can have run, and
since the raise branch carries no updated collection, the collection and
its engines are unchanged (the model only produces a new collection on
the `ok` branch). -/
theorem c8_eager_scalar_validation (sem : EngineSem) (m : MultiOutputGP)
    (verbose : Bool) (x0 : Option (List ℚ)) (l : List ℚ) (q n_tries : ℚ)
    (k : ℤ) (testing : NPArray) (dd du : Bool) :
    (k ≤ 0 → ∀ p, m.learn_hyperparameters sem (k : ℚ) verbose x0 p =
      .raise (.assertionError "n_tries must be a positive integer")) ∧
    (0 < pyInt n_tries → l.length ≠ m.D + 2 → ∀ p,
      m.learn_hyperparameters sem n_tries verbose (some l) p =
        .raise (.assertionError "x0 must have length of number of input parameters D + 2")) ∧
    (0 < pyInt n_tries → badX0 x0 m.D = false → pyInt q ≤ 0 →
      m.learn_hyperparameters sem n_tries verbose x0 (some q) =
        .raise (.assertionError "number of processes must be positive")) ∧
    (testing.ndim = 2 → testing.dim 1 = m.D → pyInt q ≤ 0 →
      m.predict sem testing dd du (some q) =
        .raise (.assertionError "number of processes must be a positive integer")) := by
  refine ⟨?_, ?_, ?_, ?_⟩
  · intro hk p
    have hki : pyInt (k : ℚ) ≤ 0 := by rw [pyInt_intCast]; exact hk
    simp [MultiOutputGP.learn_hyperparameters, hki]
  · intro hnt hl p
    have h2 : ¬ pyInt n_tries ≤ 0 := by omega
    have h3 : badX0 (some l) m.D = true := by simp [badX0, hl]
    simp [MultiOutputGP.learn_hyperparameters, h2, h3]
  · intro hnt hx hq
    have h2 : ¬ pyInt n_tries ≤ 0 := by omega
    have h3 : badProcesses (some q) = true := by simp [badProcesses, hq]
    simp [MultiOutputGP.learn_hyperparameters, h2, hx, h3]
  · intro h1 h2 hq
    have h3 : badProcesses (some q) = true := by simp [badProcesses, hq]
    simp [MultiOutputGP.predict, h1, h2, h3]

/-- C8 witness: each invalid-argument path on the concrete collection:
`n_tries = 0`, an empty `x0` (length 0, not `D + 2 = 4`), and the
processes value 1/2 (truncates to 0) in both calls. -/
theorem c8_eager_scalar_validation_witness :
    demoMogp.learn_hyperparameters demoSem ((0 : ℤ) : ℚ) false none none =
      .raise (.assertionError "n_tries must be a positive integer") ∧
    demoMogp.learn_hyperparameters demoSem 15 false (some []) none =
      .raise (.assertionError "x0 must have length of number of input parameters D + 2") ∧
    demoMogp.learn_hyperparameters demoSem 15 false none (some qHalf) =
      .raise (.assertionError "number of processes must be positive") ∧
    demoMogp.predict demoSem demoTesting true true (some qHalf) =
      .raise (.assertionError "number of processes must be a positive integer") :=
  ⟨(c8_eager_scalar_validation demoSem demoMogp false none [] qHalf 15 0
      demoTesting true true).1 (by decide) none,
   (c8_eager_scalar_validation demoSem demoMogp false none [] qHalf 15 0
      demoTesting true true).2.1 (by decide) (by decide) none,
   (c8_eager_scalar_validation demoSem demoMogp false none [] qHalf 15 0
      demoTesting true true).2.2.1 (by decide) (by decide) (by decide),
   (c8_eager_scalar_validation demoSem demoMogp false none [] qHalf 15 0
      demoTesting true true).2.2.2 (by decide) (by decide) (by decide)⟩

/-- C9: constructing from an `(n, D)` inputs table and a `(k, n)` targets
table yields `get_n_emulators() = k`, `get_n() = n`, `get_D() = D`; the
accessors are plain field reads (pure functions of the collection state,
with no failure branch in the model), and a successful
`learn_hyperparameters` returns a collection with the same three scalars
(`predict` returns no collection at all in the model: it never writes
engine or collection state in the parent process). -/
theorem c9_accessors_and_frame (inputs targets : NPArray)
    (m : MultiOutputGP) (n D k : Nat)
    (hi : inputs.shape = [n, D]) (ht : targets.shape = [k, n])
    (hmk : MultiOutputGP.make inputs targets = .ok m) :
    m.get_n_emulators = k ∧ m.get_n = n ∧ m.get_D = D ∧
    ∀ sem nt v x0 p res mnew,
      m.learn_hyperparameters sem nt v x0 p = .ok (res, mnew) →
      mnew.get_n_emulators = m.get_n_emulators ∧ mnew.get_n = m.get_n ∧
        mnew.get_D = m.get_D := by
  have h2 : targets.ndim = 2 := by simp [NPArray.ndim, ht]
  rcases make_ok_inv inputs targets m hmk with ⟨ha, hchk⟩ | ⟨hb, hchk⟩
  · omega
  · obtain ⟨hnd, hcross, hm⟩ := makeChecked_ok_inv inputs targets m hchk
    subst hm
    refine ⟨?_, ?_, ?_, ?_⟩
    · simp [MultiOutputGP.get_n_emulators, NPArray.dim, ht]
    · simp [MultiOutputGP.get_n, NPArray.dim, hi]
    · simp [MultiOutputGP.get_D, NPArray.dim, hi]
    · intro sem nt v x0 p res mnew hcall
      rw [learn_ok_iff] at hcall
      obtain ⟨-, -, -, heq⟩ := hcall
      have hsnd : mnew = ((MultiOutputGP.learnChecked sem _ (pyInt nt).toNat
          v x0)).2 := congrArg Prod.snd heq
      rw [hsnd]
      exact learnChecked_preserves_scalars sem _ _ v x0

/-- C9 witness: the accessor theorem on the concrete collection with
`n = 2`, `D = 2`, `k = 1`. -/
theorem c9_accessors_and_frame_witness :
    demoMogp.get_n_emulators = 1 ∧ demoMogp.get_n = 2 ∧
    demoMogp.get_D = 2 ∧
    ∀ sem nt v x0 p res mnew,
      demoMogp.learn_hyperparameters sem nt v x0 p = .ok (res, mnew) →
      mnew.get_n_emulators = demoMogp.get_n_emulators ∧
        mnew.get_n = demoMogp.get_n ∧ mnew.get_D = demoMogp.get_D :=
  c9_accessors_and_frame demoInputs demoTargets demoMogp 2 2 1
    (by decide) (by decide) (by decide)

/-- C10: the orchestration reads `n_tries` only through `int(n_tries)`
(truncation toward zero): any scalar whose truncation is at least 1 is
accepted and drives exactly the call that its truncation drives (so 15.9
behaves as 15, and the fit tasks receive `int(n_tries)` restarts), while
a truncation of 0 or less — including 1/2 — is rejected by the first
assert; `processes` is likewise truncated before its positivity check in
both `learn_hyperparameters` and `predict`, so 1/2 is rejected there and
3/2 is accepted (and behaves as the default pool-size-wise, the result
being pool-size independent). -/
theorem c10_int_truncation_semantics (sem : EngineSem) (m : MultiOutputGP)
    (verbose : Bool) (x0 : Option (List ℚ)) (p : Option ℚ) (q r : ℚ)
    (testing : NPArray) (dd du : Bool) :
    (1 ≤ pyInt q →
      m.learn_hyperparameters sem q verbose x0 p =
        m.learn_hyperparameters sem ((pyInt q : ℤ) : ℚ) verbose x0 p) ∧
    (1 ≤ pyInt q → badX0 x0 m.D = false → badProcesses p = false →
      m.learn_hyperparameters sem q verbose x0 p =
        .ok (m.learnChecked sem (pyInt q).toNat verbose x0)) ∧
    (pyInt q ≤ 0 →
      m.learn_hyperparameters sem q verbose x0 p =
        .raise (.assertionError "n_tries must be a positive integer")) ∧
    (1 ≤ pyInt q → badX0 x0 m.D = false →
      (pyInt r ≤ 0 →
        m.learn_hyperparameters sem q verbose x0 (some r) =
          .raise (.assertionError "number of processes must be positive")) ∧
      (1 ≤ pyInt r →
        m.learn_hyperparameters sem q verbose x0 (some r) =
          m.learn_hyperparameters sem q verbose x0 none)) ∧
    (testing.ndim = 2 → testing.dim 1 = m.D →
      (pyInt r ≤ 0 →
        m.predict sem testing dd du (some r) =
          .raise (.assertionError "number of processes must be a positive integer")) ∧
      (1 ≤ pyInt r →
        m.predict sem testing dd du (some r) =
          m.predict sem testing dd du none)) := by
  refine ⟨?_, ?_, ?_, ?_, ?_⟩
  · intro hq
    exact learn_pyInt_congr sem m q ((pyInt q : ℤ) : ℚ)
      (pyInt_intCast (pyInt q)).symm verbose x0 p
  · intro hq hx hp
    have h2 : ¬ pyInt q ≤ 0 := by omega
    simp [MultiOutputGP.learn_hyperparameters, h2, hx, hp]
  · intro hq
    simp [MultiOutputGP.learn_hyperparameters, hq]
  · intro hq hx
    have h2 : ¬ pyInt q ≤ 0 := by omega
    constructor
    · intro hr
      have h3 : badProcesses (some r) = true := by simp [badProcesses, hr]
      simp [MultiOutputGP.learn_hyperparameters, h2, hx, h3]
    · intro hr
      have h3 : badProcesses (some r) = false := by
        simp only [badProcesses, decide_eq_false_iff_not]
        omega
      have h4 : badProcesses none = false := rfl
      simp [MultiOutputGP.learn_hyperparameters, h2, hx, h3, h4]
  · intro h1 hD
    constructor
    · intro hr
      have h3 : badProcesses (some r) = true := by simp [badProcesses, hr]
      simp [MultiOutputGP.predict, h1, hD, h3]
    · intro hr
      have h3 : badProcesses (some r) = false := by
        simp only [badProcesses, decide_eq_false_iff_not]
        omega
      have h4 : badProcesses none = false := rfl
      simp [MultiOutputGP.predict, h1, hD, h3, h4]

/-- C10 witness: 15.9 is accepted and behaves as 15; 1/2 is rejected as
`n_tries` and as `processes` (in both calls) even though it is positive;
3/2 is accepted as `processes` in both calls. -/
theorem c10_int_truncation_semantics_witness :
    pyInt q159 = 15 ∧ pyInt qHalf = 0 ∧ pyInt qThreeHalves = 1 ∧
    demoMogp.learn_hyperparameters demoSem q159 false none none =
      demoMogp.learn_hyperparameters demoSem ((pyInt q159 : ℤ) : ℚ)
        false none none ∧
    demoMogp.learn_hyperparameters demoSem qHalf false none none =
      .raise (.assertionError "n_tries must be a positive integer") ∧
    demoMogp.learn_hyperparameters demoSem q159 false none (some qHalf) =
      .raise (.assertionError "number of processes must be positive") ∧
    demoMogp.learn_hyperparameters demoSem q159 false none
        (some qThreeHalves) =
      demoMogp.learn_hyperparameters demoSem q159 false none none ∧
    demoMogp.predict demoSem demoTesting true true (some qHalf) =
      .raise (.assertionError "number of processes must be a positive integer") ∧
    demoMogp.predict demoSem demoTesting true true (some qThreeHalves) =
      demoMogp.predict demoSem demoTesting true true none :=
  ⟨by decide, by decide, by decide,
   (c10_int_truncation_semantics demoSem demoMogp false none none q159 qHalf
      demoTesting true true).1 (by decide),
   (c10_int_truncation_semantics demoSem demoMogp false none none qHalf qHalf
      demoTesting true true).2.2.1 (by decide),
   ((c10_int_truncation_semantics demoSem demoMogp false none none q159 qHalf
      demoTesting true true).2.2.2.1 (by decide) (by decide)).1 (by decide),
   ((c10_int_truncation_semantics demoSem demoMogp false none none q159
      qThreeHalves demoTesting true true).2.2.2.1 (by decide) (by decide)).2
        (by decide),
   ((c10_int_truncation_semantics demoSem demoMogp false none none q159 qHalf
      demoTesting true true).2.2.2.2 (by decide) (by decide)).1 (by decide),
   ((c10_int_truncation_semantics demoSem demoMogp false none none q159
      qThreeHalves demoTesting true true).2.2.2.2 (by decide) (by decide)).2
        (by decide)⟩
